import Mathlib

/-!
Shallow embedding of the receipt-OCR extraction pipeline of this repository
(`enhanced_extractor.py` and the post-OCR part of `enhanced_scanner.py`).

Conventions used throughout:
* Python strings are modelled as Lean `String` / `List Char`.
* Python `float` amounts are modelled as exact rationals (`ℚ`); the amounts in
  this development are small decimal literals, for which rational arithmetic
  agrees with IEEE semantics on every comparison performed by the code.
* `datetime.datetime.now().year` is made explicit: every function that
  transitively consults the wall clock takes a `currentYear : Nat` parameter.
* Each regular expression of the source is transcribed into a small regex AST
  (`Re`) executed by a backtracking matcher (`Re.run`) with Python `re`
  semantics (leftmost match, greedy/lazy quantifiers, ordered alternation).
  The original pattern text is quoted in a comment next to each transcription.
-/

namespace Receipt

/-! ## Character classes (Python `re` classes, ASCII fragment) -/

/-- Python `\s` (ASCII fragment: the inputs in this development contain only
ASCII whitespace). -/
def isPySpace (c : Char) : Bool :=
  c = ' ' || c = '\t' || c = '\n' || c = '\r' || c = '\x0b' || c = '\x0c'

/-- Python `\d` (ASCII digits). -/
def isPyDigit (c : Char) : Bool :=
  '0' ≤ c && c ≤ '9'

/-- Python `\w` (ASCII fragment: letters, digits, underscore). -/
def isPyWord (c : Char) : Bool :=
  ('a' ≤ c && c ≤ 'z') || ('A' ≤ c && c ≤ 'Z') || isPyDigit c || c = '_'

/-- ASCII letter, i.e. `[A-Z]` under `re.IGNORECASE`. -/
def isAsciiLetter (c : Char) : Bool :=
  ('a' ≤ c && c ≤ 'z') || ('A' ≤ c && c ≤ 'Z')

/-- Python `str.lower` on the characters occurring here (ASCII case map). -/
def pyLowerChar (c : Char) : Char :=
  if 'A' ≤ c && c ≤ 'Z' then Char.ofNat (c.toNat + 32) else c

/-- Python `str.upper` (ASCII case map). -/
def pyUpperChar (c : Char) : Char :=
  if 'a' ≤ c && c ≤ 'z' then Char.ofNat (c.toNat - 32) else c

def pyLower (s : List Char) : List Char := s.map pyLowerChar

def pyUpper (s : List Char) : List Char := s.map pyUpperChar

/-- The apostrophe character (U+0027), used in the merchant tables. -/
def aposChar : Char := Char.ofNat 39

/-! ## Small string utilities shared by the extractors -/

/-- Python `needle in haystack` (substring test). -/
def containsSub (needle haystack : List Char) : Bool :=
  if haystack.length < needle.length then
    needle.isEmpty
  else
    match haystack with
    | [] => needle.isEmpty
    | _ :: rest => needle.isPrefixOf haystack || containsSub needle rest

/-- Python `str.strip()`: remove leading and trailing whitespace. -/
def pyStrip (s : List Char) : List Char :=
  ((s.dropWhile isPySpace).reverse.dropWhile isPySpace).reverse

/-- Python `text.split(sep)` for a one-character separator `sep`
(as used with `'\n'` by every line-oriented sub-extractor). -/
def pySplitChar (sep : Char) : List Char → List (List Char)
  | [] => [[]]
  | c :: rest =>
    let tails := pySplitChar sep rest
    if c = sep then
      [] :: tails
    else
      match tails with
      | [] => [[c]]
      | t :: ts => (c :: t) :: ts

/-! ## The `_clean_text` pipeline (`enhanced_extractor.py`, lines 110-126) -/

/-- Embeds `re.sub(r'\s+', ' ', text)`: every maximal run of whitespace is
replaced by a single space.  `prevSpace` records whether the previous input
character belonged to a whitespace run already emitted. -/
def collapseWsAux : Bool → List Char → List Char
  | _, [] => []
  | prevSpace, c :: rest =>
    if isPySpace c then
      if prevSpace then collapseWsAux true rest
      else ' ' :: collapseWsAux true rest
    else c :: collapseWsAux false rest

def collapseWs (s : List Char) : List Char := collapseWsAux false s

/-- Python `text.replace(old, new)` on single characters. -/
def replaceAllChar (old new : Char) (s : List Char) : List Char :=
  s.map (fun c => if c = old then new else c)

/-- Python `text.replace(old, new, 1)` on single characters. -/
def replaceFirstChar (old new : Char) : List Char → List Char
  | [] => []
  | c :: rest =>
    if c = old then new :: rest else c :: replaceFirstChar old new rest

/-- Character class of `re.sub(r'[₹Rs\.]+', '₹', text)` ("normalize currency
symbols"): the rupee sign, capital `R`, lowercase `s`, and the full stop. -/
def isCurrencyChar (c : Char) : Bool :=
  c = '₹' || c = 'R' || c = 's' || c = '.'

/-- Embeds `re.sub(r'[₹Rs\.]+', '₹', text)`: every maximal run of characters
from the class is replaced by a single `'₹'`. -/
def currencyNormAux : Bool → List Char → List Char
  | _, [] => []
  | inRun, c :: rest =>
    if isCurrencyChar c then
      if inRun then currencyNormAux true rest
      else '₹' :: currencyNormAux true rest
    else c :: currencyNormAux false rest

def currencyNorm (s : List Char) : List Char := currencyNormAux false s

/-- One match attempt of `re.sub(r'(\d+),(\d{2})\b', r'\1.\2', text)` at the
head of `s`: a nonempty digit run, a comma, exactly two digits, and a word
boundary.  Returns the replacement together with the unconsumed suffix. -/
def decimalFixHere (s : List Char) : Option (List Char × List Char) :=
  let ds := s.takeWhile isPyDigit
  let rest := s.dropWhile isPyDigit
  if ds.isEmpty then none
  else
    match rest with
    | ',' :: d1 :: d2 :: tail =>
      if isPyDigit d1 && isPyDigit d2 then
        match tail with
        | [] => some (ds ++ '.' :: [d1, d2], [])
        | t :: _ => if isPyWord t then none else some (ds ++ '.' :: [d1, d2], tail)
      else none
    | _ => none

/-- Embeds `re.sub(r'(\d+),(\d{2})\b', r'\1.\2', text)` ("fix decimal
separators"), scanning left to right.  The fuel argument (instantiated with
the input length by `decimalFix`) only serves termination: each step either
consumes the whole match (at least four characters) or one character. -/
def decimalFixAux : Nat → List Char → List Char
  | 0, s => s
  | _ + 1, [] => []
  | fuel + 1, c :: rest =>
    match decimalFixHere (c :: rest) with
    | some (out, tail) => out ++ decimalFixAux fuel tail
    | none => c :: decimalFixAux fuel rest

def decimalFix (s : List Char) : List Char := decimalFixAux s.length s

/-- Embeds `EnhancedReceiptExtractor._clean_text` exactly as written:
collapse whitespace, `|`→`I`, first `0`→`O`, first `5`→`S`, normalize the
currency character class, fix comma decimal separators, strip. -/
def cleanTextL (s : List Char) : List Char :=
  pyStrip <| decimalFix <| currencyNorm <|
    replaceFirstChar '5' 'S' <| replaceFirstChar '0' 'O' <|
      replaceAllChar '|' 'I' <| collapseWs s

def cleanText (s : String) : String := ⟨cleanTextL s.data⟩

/-! ## A small regex AST with Python `re` matching semantics

Quantified subpatterns in the source's regexes are always single-character
classes, so the AST only provides repetition over classes (`rep`), which keeps
the backtracking matcher structurally terminating.  Ordered alternation,
greedy/lazy repetition and leftmost search reproduce `re`'s behaviour. -/

inductive Re where
  /-- Matches the empty string. -/
  | eps : Re
  /-- A single character from a class. -/
  | cls : (Char → Bool) → Re
  /-- Concatenation. -/
  | seq : Re → Re → Re
  /-- Ordered alternation (`a|b`: `a` preferred, as in `re`). -/
  | alt : Re → Re → Re
  /-- Greedy option (`a?`). -/
  | opt : Re → Re
  /-- Repetition of a class: `rep p lo hi greedy` is `[p]{lo,hi}` (`hi = none`
  meaning unbounded), greedy when `greedy = true`, lazy otherwise. -/
  | rep : (Char → Bool) → Nat → Option Nat → Bool → Re
  /-- Numbered capture group. -/
  | grp : Nat → Re → Re

namespace Re

/-- Literal character. -/
def chr (c : Char) : Re := cls (fun x => x = c)

/-- Case-sensitive literal string. -/
def lit (s : String) : Re := s.data.foldr (fun c r => seq (chr c) r) eps

/-- Case-insensitive literal string (give the literal in lowercase), for
patterns compiled with `re.IGNORECASE`. -/
def litCI (s : String) : Re := s.data.foldr (fun c r => seq (cls (fun x => pyLowerChar x = c)) r) eps

/-- The class `\s*`. -/
def ws : Re := rep isPySpace 0 none true

/-- The class `\s+`. -/
def ws1 : Re := rep isPySpace 1 none true

/-- Captures recorded during a match: group number paired with captured text,
most recent first (Python's `group i` is the most recent capture of group
`i`). -/
abbrev Caps := List (Nat × List Char)

/-- Length of the longest prefix of `s` of characters satisfying `p`, capped
at `hi` when a bound is given. -/
def runLen (p : Char → Bool) (hi : Option Nat) : List Char → Nat
  | [] => 0
  | c :: rest =>
    if hi = some 0 then 0
    else if p c then runLen p (hi.map (· - 1)) rest + 1
    else 0

/-- Try the continuation after dropping each candidate repetition count in
order; the first success wins. -/
def tryCounts {α : Type} (s : List Char) (caps : Caps)
    (k : List Char → Caps → Option α) : List Nat → Option α
  | [] => none
  | j :: js =>
    match k (s.drop j) caps with
    | some r => some r
    | none => tryCounts s caps k js

/-- The backtracking matcher, in continuation-passing style.  `k` receives
the unconsumed suffix and the captures; the overall result is the first
success in `re`'s preference order. -/
def run {α : Type} : Re → List Char → Caps → (List Char → Caps → Option α) → Option α
  | eps, s, caps, k => k s caps
  | cls p, s, caps, k =>
    match s with
    | [] => none
    | c :: rest => if p c then k rest caps else none
  | seq a b, s, caps, k => run a s caps (fun s2 caps2 => run b s2 caps2 k)
  | alt a b, s, caps, k =>
    match run a s caps k with
    | some r => some r
    | none => run b s caps k
  | opt a, s, caps, k =>
    match run a s caps k with
    | some r => some r
    | none => k s caps
  | rep p lo hi greedy, s, caps, k =>
    let n := runLen p hi s
    if lo ≤ n then
      let counts := List.range' lo (n - lo + 1)
      tryCounts s caps k (if greedy then counts.reverse else counts)
    else none
  | grp i a, s, caps, k =>
    run a s caps (fun s2 caps2 => k s2 ((i, s.take (s.length - s2.length)) :: caps2))

/-- Python `match.group i` (for groups that participated in the match). -/
def group (caps : Caps) (i : Nat) : Option (List Char) :=
  (caps.find? (fun x => x.1 = i)).map (·.2)

/-- Embeds `re.search(pattern, s)`: leftmost match; returns the captures and
the suffix following the match. -/
def search (r : Re) : List Char → Option (Caps × List Char)
  | [] => run r [] [] (fun rest caps => some (caps, rest))
  | c :: tail =>
    match run r (c :: tail) [] (fun rest caps => some (caps, rest)) with
    | some x => some x
    | none => search r tail

/-- True when `re.search` finds a match. -/
def isMatched (r : Re) (s : List Char) : Bool := (search r s).isSome

/-- Embeds `re.search('^' + pattern + '$', s)` / `re.fullmatch`: the match
must span the whole string. -/
def matchFull (r : Re) (s : List Char) : Option Caps :=
  run r s [] (fun rest caps => if rest.isEmpty then some caps else none)

/-- Embeds `re.findall(pattern, s)` collecting each match's captures in
order (non-overlapping, resuming after each match; an empty match advances
one character, as `re` does). -/
def findall (r : Re) : Nat → List Char → List Caps
  | 0, _ => []
  | fuel + 1, s =>
    match search r s with
    | none => []
    | some (caps, rest) =>
      caps ::
        (if rest.length < s.length then findall r fuel rest
         else
           match s with
           | [] => []
           | _ :: tail => findall r fuel tail)

end Re

/-- Right-nested concatenation of a pattern list, for readable transcriptions. -/
def Re.seqs (l : List Re) : Re := l.foldr Re.seq Re.eps

/-! ## Numeric parsing (`float(...)` on the captured amount strings) -/

def digitsToNat (l : List Char) : Nat :=
  l.foldl (fun n c => 10 * n + (c.toNat - 48)) 0

/-- Python `float(s)` restricted to the decimal shapes the extractor's capture
groups can produce (`\d+` optionally followed by `.`/`,` and `\d+`; the comma
has already been replaced by a dot at every call site, mirroring
`.replace(',', '.')` in the source).  Python floats are modelled as exact
rationals. -/
def pyFloat (s : List Char) : Option ℚ :=
  match pySplitChar '.' s with
  | [ds] =>
    if ds ≠ [] ∧ ds.all isPyDigit then some (digitsToNat ds : ℚ) else none
  | [ds, fs] =>
    if (ds ≠ [] ∨ fs ≠ []) ∧ ds.all isPyDigit ∧ fs.all isPyDigit then
      some ((digitsToNat ds : ℚ) + (digitsToNat fs : ℚ) / (10 : ℚ) ^ fs.length)
    else none
  | _ => none

/-- `float(group.replace(',', '.'))` as the source applies it to a captured
amount. -/
def parseAmount (g : List Char) : Option ℚ := pyFloat (replaceAllChar ',' '.' g)

/-! ## Data model (`enhanced_scanner.py`, dataclasses `OCRResult` and
`ExtractedData`) -/

/-- One item dictionary as produced by `_parse_item_line_enhanced`. -/
structure ItemLine where
  name : String
  quantity : ℚ
  unit_price : ℚ
  total_price : ℚ
  deriving DecidableEq, Repr

/-- The `ExtractedData` dataclass.  Python `None` is `Option.none`; `items`
defaults to `None` in the dataclass and is set to a (possibly empty) list by
`extract_data`. -/
structure ExtractedData where
  merchant : Option String := none
  date : Option String := none
  total : Option ℚ := none
  subtotal : Option ℚ := none
  tax : Option ℚ := none
  items : Option (List ItemLine) := none
  payment_method : Option String := none
  receipt_number : Option String := none
  confidence_score : ℚ := 0
  raw_text : String := ""
  deriving DecidableEq, Repr

/-- Python truthiness of an optional float (`if result.total: ...`):
present and nonzero. -/
def truthyQ : Option ℚ → Bool
  | none => false
  | some x => x ≠ 0

/-- Python truthiness of the `items` field: a nonempty list. -/
def truthyItems : Option (List ItemLine) → Bool
  | none => false
  | some l => !l.isEmpty

/-! ## Shared pattern fragments -/

/-- The class `[:\-]` of the label separators. -/
def colonDash : Re := Re.cls (fun c => c = ':' || c = '-')

/-- The group `(\d+(?:[.,]\d+)?)` used by every amount pattern, capturing as
group `i`. -/
def amountGrpAt (i : Nat) : Re :=
  Re.grp i (Re.seq (Re.rep isPyDigit 1 none true)
    (Re.opt (Re.seq (Re.cls (fun c => c = '.' || c = ','))
      (Re.rep isPyDigit 1 none true))))

def amountGrp : Re := amountGrpAt 1

/-- The fragment `(?:₹|Rs\.?)?`. -/
def currencyOpt : Re :=
  Re.opt (Re.alt (Re.chr '₹') (Re.seq (Re.lit "Rs") (Re.opt (Re.chr '.'))))

/-- The tail `\s*[:\-]?\s*(?:₹|Rs\.?)?\s*(\d+(?:[.,]\d+)?)` shared by many
labelled amount patterns. -/
def amountTail : Re :=
  Re.seqs [Re.ws, Re.opt colonDash, Re.ws, currencyOpt, Re.ws, amountGrp]

/-! ## `_extract_total_enhanced` (lines 244-280) -/

/-- The prioritized total patterns, searched on the lowercased line:
`(?:grand\s+)?total\s*(?:amount)?\s*[:\-]?\s*(?:₹|Rs\.?)?\s*(AMT)`,
`(?:net\s+)?amount\s*(?:payable|due)?\s*[:\-]?\s*…`,
`(?:final\s+)?total\s*[:\-]?\s*…`, `(?:bill\s+)?amount\s*[:\-]?\s*…`,
`(?:you\s+)?pay\s*[:\-]?\s*…`, `balance\s*[:\-]?\s*…`. -/
def totalPatterns : List Re :=
  [ Re.seqs [Re.opt (Re.seqs [Re.lit "grand", Re.ws1]), Re.lit "total", Re.ws,
      Re.opt (Re.lit "amount"), amountTail],
    Re.seqs [Re.opt (Re.seqs [Re.lit "net", Re.ws1]), Re.lit "amount", Re.ws,
      Re.opt (Re.alt (Re.lit "payable") (Re.lit "due")), amountTail],
    Re.seqs [Re.opt (Re.seqs [Re.lit "final", Re.ws1]), Re.lit "total", amountTail],
    Re.seqs [Re.opt (Re.seqs [Re.lit "bill", Re.ws1]), Re.lit "amount", amountTail],
    Re.seqs [Re.opt (Re.seqs [Re.lit "you", Re.ws1]), Re.lit "pay", amountTail],
    Re.seqs [Re.lit "balance", amountTail] ]

/-- First pattern of a list that matches the line and whose captured amount
parses and satisfies the bound, as in the source's
`for pattern in …: match = re.search(pattern, line); if match: try: …`. -/
def firstAmountMatch (pats : List Re) (bound : ℚ → Bool) (line : List Char) :
    Option ℚ :=
  pats.foldl
    (fun acc pat =>
      match acc with
      | some a => some a
      | none =>
        match Re.search pat line with
        | none => none
        | some (caps, _) =>
          match (Re.group caps 1).bind parseAmount with
          | some amount => if bound amount then some amount else none
          | none => none)
    none

/-- The fallback pattern `(?:₹|Rs\.?)?\s*(\d+(?:[.,]\d+)?)` (searched on the
original-case line). -/
def fallbackAmountPat : Re := Re.seqs [currencyOpt, Re.ws, amountGrp]

/-- The fallback of `_extract_total_enhanced`: all `findall` amounts of a
line, first one in `[10, 100000]` wins. -/
def fallbackTotalOfLine (line : List Char) : Option ℚ :=
  (Re.findall fallbackAmountPat (line.length + 1) line).foldl
    (fun acc caps =>
      match acc with
      | some a => some a
      | none =>
        match (Re.group caps 1).bind parseAmount with
        | some amount => if 10 ≤ amount && amount ≤ 100000 then some amount else none
        | none => none)
    none

/-- `_extract_total_enhanced`: labelled patterns bottom-up over all lines,
then the largest-reasonable-amount fallback over the last ten lines. -/
def extractTotal (lines : List (List Char)) : Option ℚ :=
  let labelled := lines.reverse.foldl
    (fun acc line =>
      match acc with
      | some a => some a
      | none => firstAmountMatch totalPatterns
          (fun a => 1 ≤ a && a ≤ 100000) (pyLower line))
    none
  match labelled with
  | some a => some a
  | none =>
    ((lines.drop (lines.length - 10)).reverse).foldl
      (fun acc line =>
        match acc with
        | some a => some a
        | none => fallbackTotalOfLine line)
      none

/-! ## `_extract_tax_enhanced` (lines 282-328) -/

/-- The body `\d+(?:\.\d+)?` (dot only, as in the percent groups and the item
amount groups). -/
def numDot : Re :=
  Re.seq (Re.rep isPyDigit 1 none true)
    (Re.opt (Re.seq (Re.chr '.') (Re.rep isPyDigit 1 none true)))

/-- GST component pattern
`LBL\s*[@:]\s*(\d+(?:\.\d+)?)\s*%\s*[:\-]?\s*(?:₹|Rs\.?)?\s*(\d+(?:[.,]\d+)?)`
for `LBL ∈ {cgst, sgst, igst}` (group 1 the percentage, group 2 the amount). -/
def gstComponentPat (label : String) : Re :=
  Re.seqs [Re.lit label, Re.ws, Re.cls (fun c => c = '@' || c = ':'), Re.ws,
    Re.grp 1 numDot, Re.ws, Re.chr '%', Re.ws, Re.opt colonDash, Re.ws,
    currencyOpt, Re.ws, amountGrpAt 2]

/-- The fallback pattern
`(?:total\s+)?(?:tax|gst)\s*[:\-]?\s*(?:₹|Rs\.?)?\s*(\d+(?:[.,]\d+)?)`. -/
def totalTaxPat : Re :=
  Re.seqs [Re.opt (Re.seqs [Re.lit "total", Re.ws1]),
    Re.alt (Re.lit "tax") (Re.lit "gst"), amountTail]

/-- Captured amount (group 2) of one GST component on a (lowercased) line,
if any. -/
def gstAmountOn (label : String) (ll : List Char) : Option ℚ :=
  match Re.search (gstComponentPat label) ll with
  | none => none
  | some (caps, _) => (Re.group caps 2).bind parseAmount

/-- `_extract_tax_enhanced`: accumulate CGST/SGST/IGST component amounts over
all lines; a line's labelled total-tax match returns immediately when no
component has been found yet; the accumulated sum is returned only if a
component was found. -/
def extractTaxAux : ℚ → Bool → List (List Char) → Option ℚ
  | acc, found, [] => if found then some acc else none
  | acc, found, line :: rest =>
    let ll := pyLower line
    let step := fun (st : ℚ × Bool) (label : String) =>
      match gstAmountOn label ll with
      | some v => (st.1 + v, true)
      | none => st
    let st := step (step (step (acc, found) "cgst") "sgst") "igst"
    match Re.search totalTaxPat ll with
    | some (caps, _) =>
      if !st.2 then
        match (Re.group caps 1).bind parseAmount with
        | some v => some v
        | none => extractTaxAux st.1 st.2 rest
      else extractTaxAux st.1 st.2 rest
    | none => extractTaxAux st.1 st.2 rest

def extractTax (lines : List (List Char)) : Option ℚ := extractTaxAux 0 false lines

/-! ## `_extract_subtotal_enhanced` (lines 330-353) -/

/-- Subtotal patterns: `sub\s*total\s*[:\-]?\s*…`, `subtotal\s*[:\-]?\s*…`,
`(?:before\s+)?tax\s*[:\-]?\s*…`. -/
def subtotalPatterns : List Re :=
  [ Re.seqs [Re.lit "sub", Re.ws, Re.lit "total", amountTail],
    Re.seqs [Re.lit "subtotal", amountTail],
    Re.seqs [Re.opt (Re.seqs [Re.lit "before", Re.ws1]), Re.lit "tax", amountTail] ]

/-- `_extract_subtotal_enhanced`: first labelled match over the lines wins
(no range bound); else `total - tax` when both are non-`None`. -/
def extractSubtotal (lines : List (List Char)) (total tax : Option ℚ) : Option ℚ :=
  let labelled := lines.foldl
    (fun acc line =>
      match acc with
      | some a => some a
      | none => firstAmountMatch subtotalPatterns (fun _ => true) (pyLower line))
    none
  match labelled with
  | some a => some a
  | none =>
    match total, tax with
    | some t, some x => some (t - x)
    | _, _ => none

/-! ## `_extract_date_enhanced` and `_parse_date_string` (lines 175-225)

`dateutil.parser.parse(s, fuzzy=True, dayfirst=True)` is modelled for the
token shapes that reach it in this development: purely numeric
day/month/year strings with a uniform `/` or `-` separator, and bare
three-or-four-digit numbers (which dateutil reads as a year).  The parser
consults the wall clock both for two-digit-year windowing and for the
`[2000, currentYear + 1]` validity band, so `currentYear` is explicit. -/

/-- First `f`-success over a list. -/
def firstSome {α β : Type} (f : α → Option β) : List α → Option β
  | [] => none
  | a :: rest =>
    match f a with
    | some b => some b
    | none => firstSome f rest

/-- dateutil's two-digit-year windowing (`convertyear`): add the current
century, then shift by a century when more than fifty years away from the
current year. -/
def duConvertYear (currentYear yy : Nat) : Nat :=
  let y := currentYear / 100 * 100 + yy
  if y + 50 ≤ currentYear then y + 100
  else if currentYear + 50 ≤ y then y - 100
  else y

/-- Model of `dateutil.parser.parse(s, fuzzy=True, dayfirst=True)` on the
shapes above, returning `(year, month, day)`.  With `dayfirst`, a numeric
triple is read day-first, swapping day and month when the day slot cannot be
a day or the month slot cannot be a month.  A bare 3-4 digit token is a year
(dateutil fills month/day from today; only the year's validity matters to
the caller, and the filled fields are modelled as January 1st). -/
def duParse (currentYear : Nat) (s : List Char) : Option (Nat × Nat × Nat) :=
  let parts :=
    if s.contains '/' then pySplitChar '/' s
    else pySplitChar '-' s
  match parts with
  | [a, b, c] =>
    if a ≠ [] && a.all isPyDigit && a.length ≤ 2 &&
       b ≠ [] && b.all isPyDigit && b.length ≤ 2 &&
       c.all isPyDigit && 2 ≤ c.length && c.length ≤ 4 then
      let av := digitsToNat a
      let bv := digitsToNat b
      let yv := if c.length ≤ 2 then duConvertYear currentYear (digitsToNat c)
                else digitsToNat c
      if 1 ≤ av && av ≤ 31 && 1 ≤ bv && bv ≤ 12 then some (yv, bv, av)
      else if 1 ≤ bv && bv ≤ 31 && 1 ≤ av && av ≤ 12 then some (yv, av, bv)
      else none
    else none
  | [a] =>
    if a.all isPyDigit && 3 ≤ a.length && a.length ≤ 4 then
      some (digitsToNat a, 1, 1)
    else none
  | _ => none

/-- Decimal digits of `n`, most significant first. -/
def natDigits (n : Nat) : List Char :=
  (Nat.toDigits 10 n)

/-- Zero-padded decimal rendering, as `strftime`'s `%0Nd`. -/
def padNat (w n : Nat) : List Char :=
  List.replicate (w - (natDigits n).length) '0' ++ natDigits n

/-- `parsed.strftime('%Y-%m-%d')`. -/
def formatDate (y m d : Nat) : String :=
  ⟨padNat 4 y ++ '-' :: padNat 2 m ++ '-' :: padNat 2 d⟩

/-- `_parse_date_string`: drop every character outside the keep-class of the
source's substitution (digits, hyphen, slash, dot, whitespace and word
characters), strip whitespace, parse, and accept only years in
`[2000, currentYear + 1]`. -/
def parseDateString (currentYear : Nat) (s : List Char) : Option String :=
  let cleaned := pyStrip (s.filter
    (fun c => isPyDigit c || c = '-' || c = '/' || c = '.' ||
      isPySpace c || isPyWord c))
  match duParse currentYear cleaned with
  | none => none
  | some (y, m, d) =>
    if 2000 ≤ y ∧ y ≤ currentYear + 1 then some (formatDate y m d) else none

/-- `\d{1,2}`. -/
def dd12 : Re := Re.rep isPyDigit 1 (some 2) true

/-- `\d{2,4}`. -/
def dd24 : Re := Re.rep isPyDigit 2 (some 4) true

/-- The date-separator class (a slash or a hyphen). -/
def dateSep : Re := Re.cls (fun c => c = '/' || c = '-')

/-- The four labelled-date patterns (compiled with `re.IGNORECASE`):
`(?:bill|invoice|receipt)\s+(?:date|dt)\s*[:\.]?\s*([^\n]+)`,
`date\s*[:\.]?\s*([^\n]+)`, `dt\s*[:\.]?\s*([^\n]+)`,
`dated?\s*[:\.]?\s*([^\n]+)`. -/
def dateLabelPatterns : List Re :=
  let tail := Re.seqs [Re.ws, Re.opt (Re.cls (fun c => c = ':' || c = '.')),
    Re.ws, Re.grp 1 (Re.rep (fun c => c ≠ '\n') 1 none true)]
  [ Re.seqs [Re.alt (Re.litCI "bill") (Re.alt (Re.litCI "invoice") (Re.litCI "receipt")),
      Re.ws1, Re.alt (Re.litCI "date") (Re.litCI "dt"), tail],
    Re.seqs [Re.litCI "date", tail],
    Re.seqs [Re.litCI "dt", tail],
    Re.seqs [Re.litCI "date", Re.opt (Re.litCI "d"), tail] ]

/-- Month-name alternation `(?:Jan|Feb|…|Dec)` under `IGNORECASE`. -/
def monthAlt : Re :=
  [ "jan", "feb", "mar", "apr", "may", "jun", "jul", "aug", "sep", "oct",
    "nov" ].foldr (fun m acc => Re.alt (Re.litCI m) acc) (Re.litCI "dec")

/-- The `self.date_patterns` list, writing `SEP` for the slash-or-hyphen
class: `(\d{1,2}SEP\d{1,2}SEP\d{2,4})`,
`(\d{1,2}\s+(?:Jan|…|Dec)[a-z]*\s+\d{2,4})`, `(\d{2,4}SEP\d{1,2}SEP\d{1,2})`,
`(\d{1,2}\.?\d{1,2}\.?\d{2,4})`. -/
def datePatterns : List Re :=
  [ Re.grp 1 (Re.seqs [dd12, dateSep, dd12, dateSep, dd24]),
    Re.grp 1 (Re.seqs [dd12, Re.ws1, monthAlt,
      Re.rep isAsciiLetter 0 none true, Re.ws1, dd24]),
    Re.grp 1 (Re.seqs [dd24, dateSep, dd12, dateSep, dd12]),
    Re.grp 1 (Re.seqs [dd12, Re.opt (Re.chr '.'), dd12, Re.opt (Re.chr '.'), dd24]) ]

/-- Strategy 3's pattern `(\d{1,2}SEP\d{1,2}SEP\d{2,4})\s+(\d{1,2}:\d{2})`
(`SEP` again the slash-or-hyphen class). -/
def dateTimePattern : Re :=
  Re.seqs [Re.grp 1 (Re.seqs [dd12, dateSep, dd12, dateSep, dd24]), Re.ws1,
    Re.grp 2 (Re.seqs [dd12, Re.chr ':', Re.rep isPyDigit 2 (some 2) true])]

/-- The candidate date substrings `_extract_date_enhanced` feeds to
`_parse_date_string`, in strategy order: the (stripped) first match of each
label pattern, every `findall` match of each date pattern, then the first
match of the date-plus-time pattern.  The source returns the first candidate
that parses; nothing follows the last candidate, so the early returns
collapse to `firstSome` over this list. -/
def dateCandidates (t : List Char) : List (List Char) :=
  (dateLabelPatterns.filterMap
    (fun pat => (Re.search pat t).bind (fun x => (Re.group x.1 1).map pyStrip))) ++
  (datePatterns.flatMap
    (fun pat => (Re.findall pat (t.length + 1) t).filterMap
      (fun caps => Re.group caps 1))) ++
  ((Re.search dateTimePattern t).bind (fun x => Re.group x.1 1)).toList

/-- `_extract_date_enhanced`. -/
def extractDate (currentYear : Nat) (t : List Char) : Option String :=
  firstSome (parseDateString currentYear) (dateCandidates t)

/-! ## `_extract_merchant_enhanced` and `_is_likely_not_merchant`
(lines 128-173 and 546-562) -/

/-- Embeds `re.search` of a pattern of the form `(?:^|\n) inner (?:\n|$)`
compiled with `re.MULTILINE`: the match can start at position 0 (the
zero-width `^` branch) or at a literal newline (consumed by the `\n`
branch); the trailing alternative accepts at a newline or at end of input. -/
def searchLineAnchoredAux (inner : Re) (k : List Char → Re.Caps → Option Re.Caps) :
    List Char → Option Re.Caps
  | [] => none
  | c :: rest =>
    if c = '\n' then
      match Re.run inner rest [] k with
      | some caps => some caps
      | none => searchLineAnchoredAux inner k rest
    else searchLineAnchoredAux inner k rest

def searchLineAnchored (inner : Re) (s : List Char) : Option Re.Caps :=
  let k := fun (rest : List Char) (caps : Re.Caps) =>
    match rest with
    | [] => some caps
    | c :: _ => if c = '\n' then some caps else none
  match Re.run inner s [] k with
  | some caps => some caps
  | none => searchLineAnchoredAux inner k s

/-- The ordered `known_merchants` table (Python dicts preserve insertion
order). -/
def knownMerchants : List (String × String) :=
  [ ("D MART", "D-Mart"),
    ("DMART", "D-Mart"),
    ("AVENUE SUPERMARTS", "D-Mart (Avenue Supermarts Ltd)"),
    ("BIG BAZAAR", "Big Bazaar"),
    ("RELIANCE", "Reliance Fresh/Smart"),
    ("MORE", "More Supermarket"),
    ("SPENCERS", "Spencer\x27s Retail"),
    ("FOOD WORLD", "Food World"),
    ("STAR BAZAAR", "Star Bazaar"),
    ("EASYDAY", "Easyday Club"),
    ("HYPERCITY", "HyperCITY"),
    ("NATURE\x27S BASKET", "Nature\x27s Basket") ]

/-- The class `[A-Z\s&]` under `IGNORECASE`. -/
def isMerchantChar (c : Char) : Bool :=
  isAsciiLetter c || isPySpace c || c = '&'

/-- Ordered alternation of case-insensitive literals. -/
def altCI : List String → Re
  | [] => Re.eps
  | [w] => Re.litCI w
  | w :: rest => Re.alt (Re.litCI w) (altCI rest)

/-- Inner parts (between the line anchors) of `self.merchant_patterns`:
`\s*([A-Z][A-Z\s&]{2,30}(?:LTD|LIMITED|PVT|PRIVATE|MART|STORE|SHOP|SUPERMARKET)?)\s*`,
`\s*([A-Z][A-Z\s&]{2,30})\s*(?:®|™|©)\s*`, and
`\s*(D[\s-]?MART|BIG\s*BAZAAR|RELIANCE|MORE|SPENCER…S|FOOD\s*WORLD)\s*`
(where `…` stands for an optional apostrophe), all under `IGNORECASE`. -/
def merchantPatterns : List Re :=
  [ Re.seqs [Re.ws, Re.grp 1 (Re.seqs [Re.cls isAsciiLetter,
      Re.rep isMerchantChar 2 (some 30) true,
      Re.opt (altCI ["ltd", "limited", "pvt", "private", "mart", "store",
        "shop", "supermarket"])]), Re.ws],
    Re.seqs [Re.ws, Re.grp 1 (Re.seqs [Re.cls isAsciiLetter,
      Re.rep isMerchantChar 2 (some 30) true]), Re.ws,
      Re.cls (fun c => c = '®' || c = '™' || c = '©'), Re.ws],
    Re.seqs [Re.ws, Re.grp 1 (
      Re.alt (Re.seqs [Re.litCI "d",
          Re.opt (Re.cls (fun c => isPySpace c || c = '-')), Re.litCI "mart"])
      (Re.alt (Re.seqs [Re.litCI "big", Re.ws, Re.litCI "bazaar"])
      (Re.alt (Re.litCI "reliance")
      (Re.alt (Re.litCI "more")
      (Re.alt (Re.seqs [Re.litCI "spencer", Re.opt (Re.chr aposChar), Re.litCI "s"])
        (Re.seqs [Re.litCI "food", Re.ws, Re.litCI "world"])))))), Re.ws] ]

/-- Word-bounded occurrence of `w` in `s` (embeds `\bW\b` in `re.search`).
`prevIsWord` tracks whether the character before the current position is a
word character. -/
def hasWordBounded (w : List Char) : Bool → List Char → Bool
  | _, [] => w.isEmpty
  | prevIsWord, s@(c :: rest) =>
    (!prevIsWord && w.isPrefixOf s &&
      (match s.drop w.length with
       | [] => true
       | t :: _ => !isPyWord t)) ||
    hasWordBounded w (isPyWord c) rest

/-- `_is_likely_not_merchant`: tax-ID keywords as bounded words in the
uppercased text, mostly-digits, or a stripped length outside `[3, 50]`. -/
def isLikelyNotMerchant (s : List Char) : Bool :=
  let su := pyUpper s
  (["CIN", "GSTIN", "PAN", "TIN", "FSSAI"].any
    (fun w => hasWordBounded w.data false su)) ||
  (2 * (s.filter isPyDigit).length > s.length) ||
  ((pyStrip s).length < 3 || 50 < (pyStrip s).length)

/-- The exclusion tables of merchant strategy 3. -/
def merchantExcludeUpper : List String :=
  ["CIN", "GSTIN", "PAN", "TIN", "FSSAI", "VAT", "TAX", "INVOICE", "RECEIPT"]

def merchantExcludeLower : List String :=
  ["tel:", "phone", "www.", "http", "email"]

/-- `re.match(r'^[\d\s\-:]+$', line)`: the line consists only of digits,
whitespace, hyphens and colons (and is nonempty). -/
def isNumericish (s : List Char) : Bool :=
  !s.isEmpty && s.all (fun c => isPyDigit c || isPySpace c || c = '-' || c = ':')

/-- `_extract_merchant_enhanced`: known-retailer table over the first ten
lines, then the anchored merchant patterns, then the first meaningful line
among the first eight. -/
def extractMerchant (t : List Char) : Option String :=
  let lines := pySplitChar '\n' t
  let strategy1 := firstSome
    (fun line =>
      let lu := pyStrip (pyUpper line)
      firstSome
        (fun (kv : String × String) =>
          if containsSub kv.1.data lu then some kv.2 else none)
        knownMerchants)
    (lines.take 10)
  match strategy1 with
  | some name => some name
  | none =>
    let strategy2 := firstSome
      (fun pat =>
        match searchLineAnchored pat t with
        | none => none
        | some caps =>
          match Re.group caps 1 with
          | none => none
          | some g =>
            let merchant := pyStrip g
            if 2 < merchant.length && !isLikelyNotMerchant merchant then
              some (String.mk merchant)
            else none)
      merchantPatterns
    match strategy2 with
    | some m => some m
    | none =>
      firstSome
        (fun line0 =>
          let line := pyStrip line0
          if 3 < line.length then
            if !(merchantExcludeUpper.any (fun p => containsSub p.data (pyUpper line))) then
              if !isNumericish line then
                if !(merchantExcludeLower.any (fun p => containsSub p.data (pyLower line))) then
                  some (String.mk line)
                else none
              else none
            else none
          else none)
        (lines.take 8)

/-! ## Item extraction (lines 355-511) -/

/-- The item-name class (word characters, whitespace, hyphen, slash and ampersand). -/
def isItemNameChar (c : Char) : Bool :=
  isPyWord c || isPySpace c || c = '-' || c = '/' || c = '&'

/-- The tax-line pattern `(?:cgst|sgst|igst|tax)\s*[@%]` (searched on the
lowercased line). -/
def taxMarkerPat : Re :=
  Re.seqs [Re.alt (Re.lit "cgst") (Re.alt (Re.lit "sgst")
    (Re.alt (Re.lit "igst") (Re.lit "tax"))),
    Re.ws, Re.cls (fun c => c = '@' || c = '%')]

/-- `_is_non_item_line`. -/
def isNonItemLine (line : List Char) : Bool :=
  let ll := pyLower line
  Re.isMatched taxMarkerPat ll ||
  (["hsn", "particulars", "description", "qty", "rate", "amount"].any
    (fun w => containsSub w.data ll)) ||
  (["total", "subtotal", "discount"].any (fun w => containsSub w.data ll)) ||
  (!line.isEmpty &&
    line.all (fun c => isPyDigit c || isPySpace c || c = '-' || c = ':' || c = '.'))

/-- Pattern 1 of `_parse_item_line_enhanced` (plain `re.search`):
`(?:\d+)\s+(NAME+?)\s+(\d+(?:\.\d+)?)\s+(\d+(?:\.\d+)?)\s+(\d+(?:\.\d+)?)` (writing `NAME` for the item-name class). -/
def itemPat1 : Re :=
  Re.seqs [Re.rep isPyDigit 1 none true, Re.ws1,
    Re.grp 1 (Re.rep isItemNameChar 1 none false), Re.ws1,
    Re.grp 2 numDot, Re.ws1, Re.grp 3 numDot, Re.ws1, Re.grp 4 numDot]

/-- Pattern 2, anchored `^…$` on the stripped line:
`^(NAME+?)\s+(\d+(?:\.\d+)?)\s+(\d+(?:\.\d+)?)\s+(\d+(?:\.\d+)?)$`. -/
def itemPat2 : Re :=
  Re.seqs [Re.grp 1 (Re.rep isItemNameChar 1 none false), Re.ws1,
    Re.grp 2 numDot, Re.ws1, Re.grp 3 numDot, Re.ws1, Re.grp 4 numDot]

/-- Pattern 3, anchored `^…$` on the stripped line:
`^(NAME+?)\s+(\d+(?:\.\d+)?)$`. -/
def itemPat3 : Re :=
  Re.seqs [Re.grp 1 (Re.rep isItemNameChar 1 none false), Re.ws1,
    Re.grp 2 numDot]

/-- Item amounts are parsed with plain `float(...)` (no comma replacement in
these patterns, whose groups only admit dots). -/
def parseItemNum (caps : Re.Caps) (i : Nat) : Option ℚ :=
  (Re.group caps i).bind pyFloat

/-- `_parse_item_line_enhanced`. -/
def parseItemLine (line : List Char) : Option ItemLine :=
  if isNonItemLine line then none
  else
    let p1 : Option ItemLine :=
      match Re.search itemPat1 line with
      | none => none
      | some (caps, _) =>
        match Re.group caps 1, parseItemNum caps 2, parseItemNum caps 3,
            parseItemNum caps 4 with
        | some g1, some qty, some rate, some amount =>
          -- accept only when qty * rate is within max(1.0, 10%) of amount
          if |qty * rate - amount| < max 1 (amount / 10) then
            some { name := String.mk (pyStrip g1), quantity := qty,
                   unit_price := rate, total_price := amount }
          else none
        | _, _, _, _ => none
    match p1 with
    | some it => some it
    | none =>
      let stripped := pyStrip line
      let p2 : Option ItemLine :=
        match Re.matchFull itemPat2 stripped with
        | none => none
        | some caps =>
          match Re.group caps 1, parseItemNum caps 2, parseItemNum caps 3,
              parseItemNum caps 4 with
          | some g1, some qty, some rate, some amount =>
            let name := pyStrip g1
            if 2 < name.length then
              some { name := String.mk name, quantity := qty,
                     unit_price := rate, total_price := amount }
            else none
          | _, _, _, _ => none
      match p2 with
      | some it => some it
      | none =>
        match Re.matchFull itemPat3 stripped with
        | none => none
        | some caps =>
          match Re.group caps 1, parseItemNum caps 2 with
          | some g1, some amount =>
            let name := pyStrip g1
            if 2 < name.length then
              some { name := String.mk name, quantity := 1,
                     unit_price := amount, total_price := amount }
            else none
          | _, _ => none

/-- The section-end pattern `(?:sub)?total\s*[:\-]`. -/
def sectionEndPat : Re :=
  Re.seqs [Re.opt (Re.lit "sub"), Re.lit "total", Re.ws, colonDash]

def itemHeaderKeywords : List String :=
  ["item", "description", "particulars", "qty", "rate", "amount", "hsn"]

/-- `_find_item_section`: the start index (Python's `-1` sentinel as `none`)
and the end index (the list length when no terminator was found; the source's
`end_idx > 0` guard is vacuous since a terminator can only be detected after
a start line). -/
def findItemSectionAux (n : Nat) : Nat → Option Nat → List (List Char) →
    Option Nat × Nat
  | _, start, [] => (start, n)
  | i, none, line :: rest =>
    let ll := pyLower line
    let headerCount := (itemHeaderKeywords.filter
      (fun w => containsSub w.data ll)).length
    if 2 ≤ headerCount then findItemSectionAux n (i + 1) (some (i + 1)) rest
    else if ["s.no", "sr.no", "sl.no"].any (fun w => containsSub w.data ll) then
      findItemSectionAux n (i + 1) (some (i + 1)) rest
    else findItemSectionAux n (i + 1) none rest
  | i, some start, line :: rest =>
    let ll := pyLower line
    if (["subtotal", "total", "tax", "discount", "amount payable"].any
        (fun w => containsSub w.data ll)) && Re.isMatched sectionEndPat ll then
      (some start, i)
    else findItemSectionAux n (i + 1) (some start) rest

def findItemSection (lines : List (List Char)) : Option Nat × Nat :=
  findItemSectionAux lines.length 0 none lines

/-- `_extract_items_fallback`. -/
def extractItemsFallback (lines : List (List Char)) : List ItemLine :=
  lines.filterMap
    (fun line0 =>
      let line := pyStrip line0
      if line.length < 3 then none
      else if isNonItemLine line then none
      else parseItemLine line)

/-- `_extract_items_enhanced`. -/
def extractItems (t : List Char) : List ItemLine :=
  let lines := pySplitChar '\n' t
  let (startIdx, endIdx) := findItemSection lines
  let items :=
    match startIdx with
    | none => []
    | some s =>
      if s < endIdx then
        ((lines.drop s).take (endIdx - s)).filterMap
          (fun line0 =>
            let line := pyStrip line0
            if line.isEmpty then none else parseItemLine line)
      else []
  if items.isEmpty then extractItemsFallback lines else items

/-! ## Receipt number and payment method (lines 513-544) -/

/-- The receipt-number class (letters, digits, hyphen, slash) under `IGNORECASE`. -/
def isReceiptNoChar (c : Char) : Bool :=
  isAsciiLetter c || isPyDigit c || c = '-' || c = '/'

/-- The receipt-number patterns (under `IGNORECASE`):
`(?:receipt|bill|invoice)\s*(?:no|number|#)\s*[:\-]?\s*(RNO+)` (writing `RNO` for the receipt-number class),
`(?:ref|reference)\s*(?:no|number)?\s*[:\-]?\s*(RNO+)`,
`(?:transaction|txn)\s*(?:id|no)?\s*[:\-]?\s*(RNO+)`. -/
def receiptNoPatterns : List Re :=
  let tail := Re.seqs [Re.ws, Re.opt colonDash, Re.ws,
    Re.grp 1 (Re.rep isReceiptNoChar 1 none true)]
  [ Re.seqs [altCI ["receipt", "bill", "invoice"], Re.ws,
      Re.alt (Re.litCI "no") (Re.alt (Re.litCI "number") (Re.chr '#')), tail],
    Re.seqs [altCI ["ref", "reference"], Re.ws,
      Re.opt (Re.alt (Re.litCI "no") (Re.litCI "number")), tail],
    Re.seqs [altCI ["transaction", "txn"], Re.ws,
      Re.opt (Re.alt (Re.litCI "id") (Re.litCI "no")), tail] ]

/-- `_extract_receipt_number`. -/
def extractReceiptNumber (t : List Char) : Option String :=
  firstSome
    (fun pat =>
      match Re.search pat t with
      | none => none
      | some (caps, _) => (Re.group caps 1).map (fun g => String.mk (pyStrip g)))
    receiptNoPatterns

/-- The ordered `payment_methods` table. -/
def paymentMethods : List (String × List String) :=
  [ ("cash", ["cash", "cash payment"]),
    ("card", ["card", "credit card", "debit card", "visa", "mastercard"]),
    ("upi", ["upi", "paytm", "gpay", "phonepe", "bhim"]),
    ("wallet", ["wallet", "digital wallet"]),
    ("net_banking", ["net banking", "netbanking", "online"]) ]

/-- `_extract_payment_method`. -/
def extractPaymentMethod (t : List Char) : Option String :=
  let tl := pyLower t
  firstSome
    (fun (mk : String × List String) =>
      if mk.2.any (fun kw => containsSub kw.data tl) then some mk.1 else none)
    paymentMethods

/-! ## Confidence scoring and cross-validation (lines 564-614) -/

/-- Python truthiness of an optional string: present and nonempty. -/
def truthyStr : Option String → Bool
  | none => false
  | some s => !s.isEmpty

/-- The guard `result.total and 1 <= result.total <= 100000` of the
25-point total contribution: a truthy total inside the sane band. -/
def totalScores : Option ℚ → Bool
  | some t => decide (t ≠ 0 ∧ 1 ≤ t ∧ t ≤ 100000)
  | none => false

/-- `len(result.items)` with `None` counting as empty. -/
def itemsCount : Option (List ItemLine) → Nat
  | some items => items.length
  | none => 0

/-- The additive point score of `_calculate_extraction_confidence`, before
normalization. -/
def extractionScore (r : ExtractedData) : ℚ :=
  (if truthyStr r.merchant then 20 else 0) +
  (if truthyStr r.date then 15 else 0) +
  (if totalScores r.total then 25 else 0) +
  (if truthyQ r.tax then 10 else 0) +
  (if truthyItems r.items then 20 + (if 1 < itemsCount r.items then 5 else 0) else 0) +
  (if truthyStr r.receipt_number then 5 else 0)

/-- `_calculate_extraction_confidence`: the score normalized by
`max_score = 100` and clamped at `1.0`. -/
def calcConfidence (r : ExtractedData) : ℚ :=
  min (extractionScore r / 100) 1

/-- `sum(item.get('total_price', item.get('unit_price', 0)) for item in items)`
(both keys are always present on items built by the parser, so this is the
sum of the total prices). -/
def itemsSum (items : List ItemLine) : ℚ :=
  items.foldl (fun acc it => acc + it.total_price) 0

/-- `_validate_and_correct`: replace a truthy total by the items sum when
within absolute tolerance 5, then by `subtotal + tax` when all three are
truthy and within tolerance 2.  Only the `total` field is written. -/
def validateAndCorrect (r : ExtractedData) : ExtractedData :=
  let t1 :=
    match r.items, r.total with
    | some items, some t =>
      if items ≠ [] ∧ t ≠ 0 then
        if |itemsSum items - t| < 5 then some (itemsSum items) else some t
      else some t
    | _, _ => r.total
  let t2 :=
    match r.subtotal, r.tax, t1 with
    | some s, some x, some t =>
      if s ≠ 0 ∧ x ≠ 0 ∧ t ≠ 0 then
        if |s + x - t| < 2 then some (s + x) else some t
      else some t
    | _, _, _ => t1
  { r with total := t2 }

/-! ## `extract_data` (lines 63-108) and the post-OCR part of
`scan_receipt` (`enhanced_scanner.py`, lines 204-218) -/

/-- The record assembled by `extract_data` before confidence scoring, field
by field as in the source (lines 80-100), with the wall-clock year made
explicit.  (`cleaned_text` and the line split of the source's locals are
written out in each field.) -/
def extractBase (currentYear : Nat) (text : String) : ExtractedData :=
  { merchant := extractMerchant (cleanTextL text.data)
    date := extractDate currentYear (cleanTextL text.data)
    total := extractTotal (pySplitChar '\n' (cleanTextL text.data))
    subtotal := extractSubtotal (pySplitChar '\n' (cleanTextL text.data))
      (extractTotal (pySplitChar '\n' (cleanTextL text.data)))
      (extractTax (pySplitChar '\n' (cleanTextL text.data)))
    tax := extractTax (pySplitChar '\n' (cleanTextL text.data))
    items := some (extractItems (cleanTextL text.data))
    payment_method := extractPaymentMethod (cleanTextL text.data)
    receipt_number := extractReceiptNumber (cleanTextL text.data)
    confidence_score := 0
    raw_text := text }

/-- The record after `result.confidence_score =
self._calculate_extraction_confidence(result)` (line 103). -/
def extractScored (currentYear : Nat) (text : String) : ExtractedData :=
  { extractBase currentYear text with
    confidence_score := calcConfidence (extractBase currentYear text) }

/-- `EnhancedReceiptExtractor.extract_data`: assemble, score, cross-validate. -/
def extractData (currentYear : Nat) (text : String) : ExtractedData :=
  validateAndCorrect (extractScored currentYear text)

/-- The `OCRResult` dataclass (bounding boxes omitted: no claim concerns
them and the scanner never reads them back). -/
structure OCRResult where
  text : String
  confidence : ℚ
  method : String
  deriving DecidableEq, Repr

/-- `max(ocr_results, key=lambda x: x.confidence) if ocr_results else None`:
Python's `max` keeps the first of equally-confident results. -/
def pickBest : List OCRResult → Option OCRResult
  | [] => none
  | r :: rest =>
    some (rest.foldl (fun b x => if b.confidence < x.confidence then x else b) r)

/-- The arbitration-and-extraction tail of
`EnhancedReceiptScanner.scan_receipt`, starting from the collected
`ocr_results` (everything before this point is image handling and OCR engine
invocation): select the best result; if none, return
`ExtractedData(raw_text="OCR_FAILED")`; otherwise run the extractor on the
winning text and then overwrite `raw_text` with the winning text and
`confidence_score` with the winning engine confidence. -/
def scanReceiptFromOcr (currentYear : Nat) (ocrResults : List OCRResult) :
    ExtractedData :=
  match pickBest ocrResults with
  | none => { raw_text := "OCR_FAILED" }
  | some best =>
    let d := extractData currentYear best.text
    { d with raw_text := best.text, confidence_score := best.confidence }

end Receipt

namespace Receipt

/-! ## Frame lemmas for `_validate_and_correct` and the pipeline stages -/

theorem validate_merchant (r : ExtractedData) :
    (validateAndCorrect r).merchant = r.merchant := rfl

theorem validate_date (r : ExtractedData) :
    (validateAndCorrect r).date = r.date := rfl

theorem validate_subtotal (r : ExtractedData) :
    (validateAndCorrect r).subtotal = r.subtotal := rfl

theorem validate_tax (r : ExtractedData) :
    (validateAndCorrect r).tax = r.tax := rfl

theorem validate_items (r : ExtractedData) :
    (validateAndCorrect r).items = r.items := rfl

theorem validate_payment_method (r : ExtractedData) :
    (validateAndCorrect r).payment_method = r.payment_method := rfl

theorem validate_receipt_number (r : ExtractedData) :
    (validateAndCorrect r).receipt_number = r.receipt_number := rfl

theorem validate_confidence_score (r : ExtractedData) :
    (validateAndCorrect r).confidence_score = r.confidence_score := rfl

theorem validate_raw_text (r : ExtractedData) :
    (validateAndCorrect r).raw_text = r.raw_text := rfl

/-- The corrected total only reads the items, total, subtotal and tax
fields of its input. -/
theorem validate_total_congr (r₁ r₂ : ExtractedData)
    (hi : r₁.items = r₂.items) (ht : r₁.total = r₂.total)
    (hs : r₁.subtotal = r₂.subtotal) (hx : r₁.tax = r₂.tax) :
    (validateAndCorrect r₁).total = (validateAndCorrect r₂).total := by
  unfold validateAndCorrect
  dsimp only
  rw [hi, ht, hs, hx]

/-- Every field of the cross-validated record other than `total` and
`confidence_score` is the corresponding field assembled by `extractBase`. -/
theorem extractData_merchant (y : Nat) (t : String) :
    (extractData y t).merchant = (extractBase y t).merchant := by
  unfold extractData
  rw [validate_merchant]
  unfold extractScored
  rfl

theorem extractData_date (y : Nat) (t : String) :
    (extractData y t).date = (extractBase y t).date := by
  unfold extractData
  rw [validate_date]
  unfold extractScored
  rfl

theorem extractData_subtotal (y : Nat) (t : String) :
    (extractData y t).subtotal = (extractBase y t).subtotal := by
  unfold extractData
  rw [validate_subtotal]
  unfold extractScored
  rfl

theorem extractData_tax (y : Nat) (t : String) :
    (extractData y t).tax = (extractBase y t).tax := by
  unfold extractData
  rw [validate_tax]
  unfold extractScored
  rfl

theorem extractData_items (y : Nat) (t : String) :
    (extractData y t).items = (extractBase y t).items := by
  unfold extractData
  rw [validate_items]
  unfold extractScored
  rfl

theorem extractData_payment_method (y : Nat) (t : String) :
    (extractData y t).payment_method = (extractBase y t).payment_method := by
  unfold extractData
  rw [validate_payment_method]
  unfold extractScored
  rfl

theorem extractData_receipt_number (y : Nat) (t : String) :
    (extractData y t).receipt_number = (extractBase y t).receipt_number := by
  unfold extractData
  rw [validate_receipt_number]
  unfold extractScored
  rfl

theorem extractData_raw_text (y : Nat) (t : String) :
    (extractData y t).raw_text = (extractBase y t).raw_text := by
  unfold extractData
  rw [validate_raw_text]
  unfold extractScored
  rfl

/-- The confidence score on the final record is the field-population
composite of the assembled record (cross-validation does not touch it). -/
theorem extractData_confidence (y : Nat) (t : String) :
    (extractData y t).confidence_score = calcConfidence (extractBase y t) := by
  unfold extractData
  rw [validate_confidence_score]
  unfold extractScored
  rfl

/-- The `date` field assembled by `extractBase` is the date extractor run on
the cleaned text. -/
theorem base_date (y : Nat) (t : String) :
    (extractBase y t).date = extractDate y (cleanTextL t.data) := by
  unfold extractBase
  rfl

/-! ## Claim C1: which confidence figure ends up on the record -/

/-- C1, amended: for every scan in which at least one OCR attempt succeeds,
`scan_receipt` returns a record whose `confidence_score` equals the winning
`OCRResult`'s engine confidence — the extractor's field-population composite
is computed but then overwritten, so the two figures are not both present on
the final record. -/
theorem scan_confidence_is_engine_confidence (y : Nat) (rs : List OCRResult)
    (best : OCRResult) (h : pickBest rs = some best) :
    (scanReceiptFromOcr y rs).confidence_score = best.confidence := by
  unfold scanReceiptFromOcr
  rw [h]

/-- Witness for `scan_confidence_is_engine_confidence` at a concrete
one-result scan. -/
theorem scan_confidence_is_engine_confidence_witness :
    (scanReceiptFromOcr 2026 [⟨"TOTAL: 123", 9/10, "tesseract_default_standard"⟩]).confidence_score
      = (9 : ℚ) / 10 :=
  scan_confidence_is_engine_confidence 2026
    [⟨"TOTAL: 123", 9/10, "tesseract_default_standard"⟩]
    ⟨"TOTAL: 123", 9/10, "tesseract_default_standard"⟩ rfl

/-- C1 counterexample: on the text `"TOTAL: 123"` with engine confidence
`0.9`, the extractor's field-population composite is `0.45`, but the record
returned by `scan_receipt` carries `0.9` — the engine confidence, not the
composite, contradicting the claim that `confidenceScore` is the composite. -/
theorem scan_confidence_not_composite :
    (scanReceiptFromOcr 2026 [⟨"TOTAL: 123", 9/10, "tesseract_default_standard"⟩]).confidence_score
        = 9/10 ∧
    (extractData 2026 "TOTAL: 123").confidence_score = 9/20 ∧
    ((9 : ℚ)/10 ≠ 9/20) := by
  refine ⟨?_, ?_, ?_⟩ <;> with_unfolding_all decide

/-! ## Claim C2: the all-OCR-failed sentinel -/

/-- C2, amended: when every OCR attempt fails (no `OCRResult` collected),
`scan_receipt` does not raise: it returns the sentinel record with
`raw_text = "OCR_FAILED"` (the status marker), `confidence_score = 0`, and
every other field `None` — including `items`, which is `None` rather than an
empty list. -/
theorem scan_ocr_failed_sentinel (y : Nat) :
    scanReceiptFromOcr y [] =
      { merchant := none, date := none, total := none, subtotal := none,
        tax := none, items := none, payment_method := none,
        receipt_number := none, confidence_score := 0,
        raw_text := "OCR_FAILED" } := by
  rfl

/-- Witness for `scan_ocr_failed_sentinel` at a concrete year. -/
theorem scan_ocr_failed_sentinel_witness :
    scanReceiptFromOcr 2026 [] =
      { merchant := none, date := none, total := none, subtotal := none,
        tax := none, items := none, payment_method := none,
        receipt_number := none, confidence_score := 0,
        raw_text := "OCR_FAILED" } :=
  scan_ocr_failed_sentinel 2026

/-- C2 counterexample: the sentinel's `raw_text` is `"OCR_FAILED"`, not the
empty string the claim requires, and its `items` field is `None`, not an
empty sequence. -/
theorem scan_ocr_failed_raw_text_nonempty :
    (scanReceiptFromOcr 2026 []).raw_text = "OCR_FAILED" ∧
    (scanReceiptFromOcr 2026 []).items = none ∧
    "OCR_FAILED" ≠ "" := by
  refine ⟨rfl, rfl, ?_⟩
  decide

/-! ## Claim C4: determinism of `extract_data` -/

/-- C4, amended: `extract_data` is a deterministic function of the text and
the wall-clock year; every field other than `date` and `confidence_score`
depends on the text alone, so two invocations can differ only in those two
fields, and only when the clock year changes between them. -/
theorem extract_data_depends_only_on_text_outside_date
    (t : String) (y₁ y₂ : Nat) :
    (extractData y₁ t).merchant = (extractData y₂ t).merchant ∧
    (extractData y₁ t).total = (extractData y₂ t).total ∧
    (extractData y₁ t).subtotal = (extractData y₂ t).subtotal ∧
    (extractData y₁ t).tax = (extractData y₂ t).tax ∧
    (extractData y₁ t).items = (extractData y₂ t).items ∧
    (extractData y₁ t).payment_method = (extractData y₂ t).payment_method ∧
    (extractData y₁ t).receipt_number = (extractData y₂ t).receipt_number ∧
    (extractData y₁ t).raw_text = (extractData y₂ t).raw_text := by
  refine ⟨?_, ?_, ?_, ?_, ?_, ?_, ?_, ?_⟩
  · rw [extractData_merchant, extractData_merchant]
    unfold extractBase
    rfl
  · unfold extractData
    refine validate_total_congr _ _ ?_ ?_ ?_ ?_ <;>
      · unfold extractScored extractBase
        rfl
  · rw [extractData_subtotal, extractData_subtotal]
    unfold extractBase
    rfl
  · rw [extractData_tax, extractData_tax]
    unfold extractBase
    rfl
  · rw [extractData_items, extractData_items]
    unfold extractBase
    rfl
  · rw [extractData_payment_method, extractData_payment_method]
    unfold extractBase
    rfl
  · rw [extractData_receipt_number, extractData_receipt_number]
    unfold extractBase
    rfl
  · rw [extractData_raw_text, extractData_raw_text]
    unfold extractBase
    rfl

/-- Witness for `extract_data_depends_only_on_text_outside_date` at a
concrete text and two concrete years. -/
theorem extract_data_depends_only_on_text_outside_date_witness :
    (extractData 2025 "TOTAL: 99").merchant
      = (extractData 2030 "TOTAL: 99").merchant :=
  (extract_data_depends_only_on_text_outside_date "TOTAL: 99" 2025 2030).1

/-- C4 counterexample: extraction is not a pure function of the text alone.
On the text `"1/1/28"`, the `date` field (and with it the confidence) depends
on the year in which the call happens: the parsed year 2028 is outside the
validity band in 2026 and inside it in 2027. -/
theorem extract_data_not_pure_in_text :
    (extractData 2026 "1/1/28").date = none ∧
    (extractData 2027 "1/1/28").date = some "2028-01-01" ∧
    extractData 2026 "1/1/28" ≠ extractData 2027 "1/1/28" := by
  refine ⟨?_, ?_, ?_⟩ <;> with_unfolding_all decide

/-! ## Claim C5: the CGST line -/

/-- C5 evaluation: on the text `"CGST @9% : ₹46.59"` (a single CGST line, no
SGST/IGST), the extractor returns `tax = 46`, not the `46.59` the spec
requires: `_clean_text`'s currency normalization `[₹Rs\.]+ → ₹` destroys the
decimal point (and the first-`5`→`S` replacement corrupts the digits), so the
amount group captures only `46`. -/
theorem cgst_line_tax_eval :
    cleanText "CGST @9% : ₹46.59" = "CGST @9% : ₹46₹S9" ∧
    (extractData 2026 "CGST @9% : ₹46.59").tax = some 46 ∧
    ((46 : ℚ) ≠ 4659/100) := by
  refine ⟨rfl, ?_, ?_⟩ <;> with_unfolding_all decide

/-! ## Claim C6: the two item lines -/

/-- C6 evaluation: on the two claimed item lines, the extractor returns an
empty `items` list (not the two claimed entries): `_clean_text` joins the two
lines into one, rewrites `GREEN` to `G₹EEN` and every `155.00`-style amount
to `155₹00`, after which no item pattern can match. -/
theorem item_lines_items_eval :
    cleanText "SAFAL GREEN PEAS 1 155.00 155.00\nLIJJAT PAPAD 2 42.00 84.00"
      = "SAFAL G₹EEN PEAS 1 1S5₹O0 155₹00 LIJJAT PAPAD 2 42₹00 84₹00" ∧
    (extractData 2026
      "SAFAL GREEN PEAS 1 155.00 155.00\nLIJJAT PAPAD 2 42.00 84.00").items
      = some [] := by
  exact ⟨rfl, by with_unfolding_all rfl⟩

/-! ## Supporting lemmas for the cleaning-stage claim -/

/-- Invariant: every whitespace character in the list is a plain space. -/
def WsOnlySpace (l : List Char) : Prop :=
  ∀ c ∈ l, isPySpace c = true → c = ' '

theorem wsOnlySpace_collapseWsAux (b : Bool) (s : List Char) :
    WsOnlySpace (collapseWsAux b s) := by
  induction s generalizing b with
  | nil => intro c hc; simp [collapseWsAux] at hc
  | cons a rest ih =>
    intro c hc hsp
    simp only [collapseWsAux] at hc
    by_cases ha : isPySpace a = true
    · simp only [ha, if_true] at hc
      by_cases hb : b
      · subst hb
        simp only [if_true] at hc
        exact ih true c hc hsp
      · simp only [hb] at hc
        rcases List.mem_cons.mp hc with h | h
        · exact h
        · exact ih true c h hsp
    · simp only [ha, if_false] at hc
      rcases List.mem_cons.mp hc with h | h
      · subst h; simp_all
      · exact ih false c h hsp

theorem mem_replaceAllChar (old new c : Char) (s : List Char)
    (h : c ∈ replaceAllChar old new s) : c = new ∨ c ∈ s := by
  rcases List.mem_map.mp h with ⟨a, ha, rfl⟩
  by_cases hao : a = old
  · simp [hao]
  · simp only [hao, if_neg, if_false]
    right
    simpa [hao] using ha

theorem mem_replaceFirstChar (old new c : Char) (s : List Char)
    (h : c ∈ replaceFirstChar old new s) : c = new ∨ c ∈ s := by
  induction s with
  | nil => simp [replaceFirstChar] at h
  | cons a rest ih =>
    simp only [replaceFirstChar] at h
    by_cases hao : a = old
    · simp only [hao, if_true] at h
      rcases List.mem_cons.mp h with h | h
      · left; exact h
      · right; exact List.mem_cons_of_mem _ h
    · simp only [hao, if_false] at h
      rcases List.mem_cons.mp h with h | h
      · right; exact h ▸ List.mem_cons_self a rest
      · rcases ih h with h | h
        · left; exact h
        · right; exact List.mem_cons_of_mem _ h

theorem mem_currencyNormAux (b : Bool) (c : Char) (s : List Char)
    (h : c ∈ currencyNormAux b s) : c = '₹' ∨ c ∈ s := by
  induction s generalizing b with
  | nil => simp [currencyNormAux] at h
  | cons a rest ih =>
    simp only [currencyNormAux] at h
    by_cases ha : isCurrencyChar a = true
    · simp only [ha, if_true] at h
      by_cases hb : b
      · subst hb
        simp only [if_true] at h
        rcases ih true h with h | h
        · left; exact h
        · right; exact List.mem_cons_of_mem _ h
      · simp only [hb] at h
        rcases List.mem_cons.mp h with h | h
        · left; exact h
        · rcases ih true h with h | h
          · left; exact h
          · right; exact List.mem_cons_of_mem _ h
    · simp only [ha, if_false] at h
      rcases List.mem_cons.mp h with h | h
      · right; exact h ▸ List.mem_cons_self a rest
      · rcases ih false h with h | h
        · left; exact h
        · right; exact List.mem_cons_of_mem _ h

theorem decimalFixHere_spec (s out tail : List Char)
    (h : decimalFixHere s = some (out, tail)) :
    (∀ c ∈ out, c = '.' ∨ c ∈ s) ∧ (∀ c ∈ tail, c ∈ s) := by
  unfold decimalFixHere at h
  by_cases hds : (s.takeWhile isPyDigit).isEmpty
  · simp [hds] at h
  · simp only [hds, if_false, Bool.false_eq_true] at h
    rcases hrest : s.dropWhile isPyDigit with _ | ⟨c1, t1⟩ <;> rw [hrest] at h
    · simp at h
    · rcases t1 with _ | ⟨c2, t2⟩
      · by_cases hc1 : c1 = ',' <;> simp_all
      · rcases t2 with _ | ⟨c3, t3⟩
        · by_cases hc1 : c1 = ',' <;> simp_all
        · have hsub1 : ∀ c ∈ s.takeWhile isPyDigit, c ∈ s :=
            fun c hc => (List.takeWhile_sublist isPyDigit).subset hc
          have hsub2 : ∀ c ∈ (c1 :: c2 :: c3 :: t3), c ∈ s := by
            rw [← hrest]
            exact fun c hc => (List.dropWhile_sublist isPyDigit).subset hc
          have hc2s : c2 ∈ s := hsub2 c2 (by simp)
          have hc3s : c3 ∈ s := hsub2 c3 (by simp)
          have ht3s : ∀ c ∈ t3, c ∈ s := fun c hc => hsub2 c (by simp [hc])
          by_cases hc1 : c1 = ','
          · subst hc1
            by_cases hdd : (isPyDigit c2 && isPyDigit c3) = true
            · simp only [hdd, if_true] at h
              rcases t3 with _ | ⟨c4, t4⟩
              · simp only [Option.some.injEq, Prod.mk.injEq] at h
                obtain ⟨rfl, rfl⟩ := h
                refine ⟨?_, by simp⟩
                intro c hc
                rcases List.mem_append.mp hc with h | h
                · right; exact hsub1 c h
                · rcases List.mem_cons.mp h with h | h
                  · left; exact h
                  · right
                    rcases List.mem_cons.mp h with h | h
                    · exact h ▸ hc2s
                    · exact (List.mem_singleton.mp h) ▸ hc3s
              · by_cases hw : isPyWord c4 = true
                · simp [hw] at h
                · simp only [hw, Bool.false_eq_true, if_false,
                    Option.some.injEq, Prod.mk.injEq] at h
                  obtain ⟨rfl, rfl⟩ := h
                  constructor
                  · intro c hc
                    rcases List.mem_append.mp hc with h | h
                    · right; exact hsub1 c h
                    · rcases List.mem_cons.mp h with h | h
                      · left; exact h
                      · right
                        rcases List.mem_cons.mp h with h | h
                        · exact h ▸ hc2s
                        · exact (List.mem_singleton.mp h) ▸ hc3s
                  · exact ht3s
            · simp [hdd] at h
          · simp [hc1] at h

theorem mem_decimalFixAux (fuel : Nat) (c : Char) (s : List Char)
    (h : c ∈ decimalFixAux fuel s) : c = '.' ∨ c ∈ s := by
  induction fuel generalizing s with
  | zero => right; simpa [decimalFixAux] using h
  | succ n ih =>
    rcases s with _ | ⟨a, rest⟩
    · simp [decimalFixAux] at h
    · rw [decimalFixAux] at h
      rcases hh : decimalFixHere (a :: rest) with _ | ⟨out, tail⟩ <;>
        rw [hh] at h
      · rcases List.mem_cons.mp h with h | h
        · right; exact h ▸ List.mem_cons_self a rest
        · rcases ih rest h with h | h
          · left; exact h
          · right; exact List.mem_cons_of_mem _ h
      · obtain ⟨hout, htail⟩ := decimalFixHere_spec _ _ _ hh
        rcases List.mem_append.mp h with h | h
        · exact hout c h
        · rcases ih tail h with h | h
          · left; exact h
          · right; exact htail c h

theorem mem_pyStrip (c : Char) (s : List Char) (h : c ∈ pyStrip s) : c ∈ s := by
  unfold pyStrip at h
  rw [List.mem_reverse] at h
  have h1 := (List.dropWhile_sublist isPySpace).subset h
  rw [List.mem_reverse] at h1
  exact (List.dropWhile_sublist isPySpace).subset h1

theorem wsOnlySpace_cleanTextL (s : List Char) : WsOnlySpace (cleanTextL s) := by
  intro c hc hsp
  unfold cleanTextL at hc
  have hc1 := mem_pyStrip c _ hc
  rcases mem_decimalFixAux _ c _ hc1 with h | h
  · subst h; simp [isPySpace] at hsp
  · rcases mem_currencyNormAux _ c _ h with h | h
    · subst h; simp [isPySpace] at hsp
    · rcases mem_replaceFirstChar _ _ c _ h with h | h
      · subst h; simp [isPySpace] at hsp
      · rcases mem_replaceFirstChar _ _ c _ h with h | h
        · subst h; simp [isPySpace] at hsp
        · rcases mem_replaceAllChar _ _ c _ h with h | h
          · subst h; simp [isPySpace] at hsp
          · exact wsOnlySpace_collapseWsAux false s c h hsp

theorem pySplitChar_eq_self (sep : Char) (s : List Char) (h : sep ∉ s) :
    pySplitChar sep s = [s] := by
  induction s with
  | nil => rfl
  | cons a rest ih =>
    have ha : a ≠ sep := fun hh => h (hh ▸ List.mem_cons_self a rest)
    have hrest : sep ∉ rest := fun hh => h (List.mem_cons_of_mem _ hh)
    simp only [pySplitChar, ih hrest]
    simp [Ne.symm ha, ha]

/-! ## Claim C10: cleaning yields a single line -/

/-- C10: `_clean_text` collapses every whitespace run (newlines included)
into a single space: every whitespace character of the cleaned text is a
plain space, in particular no newline survives, and the `text.split('\n')`
performed by the line-oriented sub-extractors returns exactly one line
containing the whole cleaned text. -/
theorem clean_text_single_line (t : String) :
    (∀ c ∈ (cleanText t).data, isPySpace c = true → c = ' ') ∧
    '\n' ∉ (cleanText t).data ∧
    pySplitChar '\n' (cleanText t).data = [(cleanText t).data] := by
  have hws : WsOnlySpace (cleanTextL t.data) := wsOnlySpace_cleanTextL t.data
  have hnl : '\n' ∉ cleanTextL t.data := by
    intro h
    have h2 := hws '\n' h (by decide)
    simp at h2
  have hdata : (cleanText t).data = cleanTextL t.data := rfl
  refine ⟨hdata ▸ hws, hdata ▸ hnl, ?_⟩
  rw [hdata]
  exact pySplitChar_eq_self _ _ hnl

/-! ## Claim C3: confidence range and the zero case -/

theorem extractionScore_nonneg (r : ExtractedData) : 0 ≤ extractionScore r := by
  unfold extractionScore
  split_ifs <;> norm_num

theorem calcConfidence_nonneg (r : ExtractedData) : 0 ≤ calcConfidence r := by
  unfold calcConfidence
  refine le_min ?_ (by norm_num)
  have := extractionScore_nonneg r
  positivity

theorem calcConfidence_le_one (r : ExtractedData) : calcConfidence r ≤ 1 :=
  min_le_right _ _

theorem extractionScore_eq_zero_iff (r : ExtractedData) :
    extractionScore r = 0 ↔
      (truthyStr r.merchant = false ∧ truthyStr r.date = false ∧
       totalScores r.total = false ∧ truthyQ r.tax = false ∧
       truthyItems r.items = false ∧ truthyStr r.receipt_number = false) := by
  unfold extractionScore
  split_ifs <;> simp_all <;> norm_num

theorem calcConfidence_eq_zero_iff (r : ExtractedData) :
    calcConfidence r = 0 ↔ extractionScore r = 0 := by
  unfold calcConfidence
  constructor
  · intro h
    rcases min_eq_iff.mp h with ⟨h1, _⟩ | ⟨h1, _⟩
    · have h100 : (100 : ℚ) ≠ 0 := by norm_num
      field_simp at h1
      exact h1
    · norm_num at h1
  · intro h
    rw [h]
    norm_num

theorem scored_items_eq (y : Nat) (t : String) :
    (extractScored y t).items = (extractBase y t).items := by
  unfold extractScored
  rfl

theorem scored_tax_eq (y : Nat) (t : String) :
    (extractScored y t).tax = (extractBase y t).tax := by
  unfold extractScored
  rfl

theorem scored_total_eq (y : Nat) (t : String) :
    (extractScored y t).total = (extractBase y t).total := by
  unfold extractScored
  rfl

/-- When extraction produced no (truthy) items and no truthy tax, the two
corrections of `_validate_and_correct` are both skipped. -/
theorem validate_total_of_absent (r : ExtractedData)
    (hi : truthyItems r.items = false) (hx : truthyQ r.tax = false) :
    (validateAndCorrect r).total = r.total := by
  obtain ⟨m, d, tot, sub, tax, its, pm, rn, cs, rt⟩ := r
  unfold validateAndCorrect
  dsimp only
  unfold truthyItems at hi
  unfold truthyQ at hx
  rcases its with _ | l <;> rcases tot with _ | tv <;>
    rcases sub with _ | s <;> rcases tax with _ | x <;>
    simp_all

theorem extractData_total_of_absent (y : Nat) (t : String)
    (hi : truthyItems (extractBase y t).items = false)
    (hx : truthyQ (extractBase y t).tax = false) :
    (extractData y t).total = (extractBase y t).total := by
  unfold extractData
  rw [validate_total_of_absent _ (by rw [scored_items_eq]; exact hi)
      (by rw [scored_tax_eq]; exact hx)]
  exact scored_total_eq y t

/-- C3, amended: for every input text, the confidence score of the record
produced by the extraction pipeline lies in `[0, 1]`, and it is `0` exactly
when the six scored conditions all fail — merchant, date and receipt number
absent (or empty), no truthy total inside `[1, 100000]`, no truthy tax, and
no items.  `subtotal`, `payment_method` and `raw_text` do not participate in
the score. -/
theorem confidence_range_and_zero_iff (y : Nat) (t : String) :
    0 ≤ (extractData y t).confidence_score ∧
    (extractData y t).confidence_score ≤ 1 ∧
    ((extractData y t).confidence_score = 0 ↔
      (truthyStr (extractData y t).merchant = false ∧
       truthyStr (extractData y t).date = false ∧
       totalScores (extractData y t).total = false ∧
       truthyQ (extractData y t).tax = false ∧
       truthyItems (extractData y t).items = false ∧
       truthyStr (extractData y t).receipt_number = false)) := by
  have hcs := extractData_confidence y t
  refine ⟨by rw [hcs]; exact calcConfidence_nonneg _,
          by rw [hcs]; exact calcConfidence_le_one _, ?_⟩
  rw [hcs, calcConfidence_eq_zero_iff, extractionScore_eq_zero_iff,
    extractData_merchant, extractData_date, extractData_tax,
    extractData_items, extractData_receipt_number]
  constructor
  · rintro ⟨h1, h2, h3, h4, h5, h6⟩
    refine ⟨h1, h2, ?_, h4, h5, h6⟩
    rw [extractData_total_of_absent y t h5 h4]
    exact h3
  · rintro ⟨h1, h2, h3, h4, h5, h6⟩
    refine ⟨h1, h2, ?_, h4, h5, h6⟩
    rw [← extractData_total_of_absent y t h5 h4]
    exact h3

/-- Witness for `confidence_range_and_zero_iff` at a concrete input. -/
theorem confidence_range_and_zero_iff_witness :
    0 ≤ (extractData 2026 "TOTAL: 123").confidence_score ∧
    (extractData 2026 "TOTAL: 123").confidence_score ≤ 1 :=
  ⟨(confidence_range_and_zero_iff 2026 "TOTAL: 123").1,
   (confidence_range_and_zero_iff 2026 "TOTAL: 123").2.1⟩

/-- C3 counterexample: on the input text `"."` the pipeline populates no
field and scores `0`, yet `raw_text` is `"."`, not the empty string — so
`confidenceScore = 0` does not imply an empty `rawText` (nor does the score
consult `subtotal` or `paymentMethod`). -/
theorem confidence_zero_with_nonempty_raw_text :
    (extractData 2026 ".").confidence_score = 0 ∧
    (extractData 2026 ".").raw_text ≠ "" := by
  constructor <;> with_unfolding_all decide

/-- Witness for `clean_text_single_line` at a concrete two-line text. -/
theorem clean_text_single_line_witness :
    pySplitChar '\n' (cleanText "a\nb").data = [(cleanText "a\nb").data] :=
  (clean_text_single_line "a\nb").2.2

/-! ## Claim C8: out-of-band dates are rejected -/

theorem pds_full2999 (y : Nat) :
    parseDateString y "31/12/2999".data =
      (if 2000 ≤ 2999 ∧ 2999 ≤ y + 1 then some (formatDate 2999 12 31)
       else none) := by
  with_unfolding_all rfl

theorem pds_full2999_none (y : Nat) (h : y ≤ 2027) :
    parseDateString y "31/12/2999".data = none := by
  rw [pds_full2999, if_neg]
  omega

theorem pds_short29 (y : Nat) :
    parseDateString y "31/12/29".data =
      (if 2000 ≤ duConvertYear y 29 ∧ duConvertYear y 29 ≤ y + 1 then
        some (formatDate (duConvertYear y 29) 12 31)
       else none) := by
  with_unfolding_all rfl

theorem duConvertYear_29 (y : Nat) (h1 : 2000 ≤ y) (h2 : y ≤ 2027) :
    duConvertYear y 29 = 2029 := by
  unfold duConvertYear
  dsimp only
  split_ifs <;> omega

theorem pds_short29_none (y : Nat) (h1 : 2000 ≤ y) (h2 : y ≤ 2027) :
    parseDateString y "31/12/29".data = none := by
  rw [pds_short29, duConvertYear_29 y h1 h2, if_neg]
  omega

theorem pds_bare2999 (y : Nat) :
    parseDateString y "2999".data =
      (if 2000 ≤ 2999 ∧ 2999 ≤ y + 1 then some (formatDate 2999 1 1)
       else none) := by
  with_unfolding_all rfl

theorem pds_bare2999_none (y : Nat) (h : y ≤ 2027) :
    parseDateString y "2999".data = none := by
  rw [pds_bare2999, if_neg]
  omega

theorem dateCandidates_2999 :
    dateCandidates "31/12/2999".data =
      ["31/12/2999".data, "31/12/29".data, "2999".data] := by
  with_unfolding_all rfl

/-- C8: on the text `"31/12/2999"` the date extractor rejects every
candidate the text offers (`31/12/2999` parses to year 2999, the
re-segmentation `31/12/29` to year 2029, and the bare token `2999` to year
2999 — all outside `[2000, currentYear + 1]` for any current year up to
2027), so the date field stays null. -/
theorem out_of_band_date_rejected (y : Nat) (h1 : 2000 ≤ y) (h2 : y ≤ 2027) :
    (extractData y "31/12/2999").date = none := by
  rw [extractData_date, base_date]
  have hclean : cleanTextL "31/12/2999".data = "31/12/2999".data := by
    with_unfolding_all rfl
  unfold extractDate
  rw [hclean, dateCandidates_2999]
  simp only [firstSome, pds_full2999_none y h2, pds_short29_none y h1 h2,
    pds_bare2999_none y h2]

theorem out_of_band_date_rejected_witness :
    2000 ≤ 2026 ∧ 2026 ≤ 2027 ∧ (extractData 2026 "31/12/2999").date = none :=
  ⟨by norm_num, by norm_num,
    out_of_band_date_rejected 2026 (by norm_num) (by norm_num)⟩

/-! ## Claim C9: cross-validation is a frame over `total` -/

/-- C9: `_validate_and_correct` only tightens agreement between fields that
extraction already produced.  Every field except `total` is returned
unchanged; a `total` that extraction found absent stays absent; and when
`total` is rewritten, the new value is either the items sum (under the
absolute tolerance 5 against the extracted total) or `subtotal + tax` with
both of those fields already present — no field is invented. -/
theorem validate_only_total (r : ExtractedData) :
    (validateAndCorrect r).merchant = r.merchant ∧
    (validateAndCorrect r).date = r.date ∧
    (validateAndCorrect r).subtotal = r.subtotal ∧
    (validateAndCorrect r).tax = r.tax ∧
    (validateAndCorrect r).items = r.items ∧
    (validateAndCorrect r).payment_method = r.payment_method ∧
    (validateAndCorrect r).receipt_number = r.receipt_number ∧
    (validateAndCorrect r).confidence_score = r.confidence_score ∧
    (validateAndCorrect r).raw_text = r.raw_text ∧
    (r.total = none → (validateAndCorrect r).total = none) ∧
    ((validateAndCorrect r).total = r.total ∨
      (∃ its t, r.items = some its ∧ r.total = some t ∧
        |itemsSum its - t| < 5 ∧ (validateAndCorrect r).total = some (itemsSum its)) ∨
      (∃ s x, r.subtotal = some s ∧ r.tax = some x ∧
        (validateAndCorrect r).total = some (s + x))) := by
  obtain ⟨m, d, tot, sub, tax, its, pm, rn, cs, rt⟩ := r
  refine ⟨rfl, rfl, rfl, rfl, rfl, rfl, rfl, rfl, rfl, ?_, ?_⟩
  · intro h
    subst h
    rcases its with _ | l <;> rcases sub with _ | s <;> rcases tax with _ | x <;> rfl
  · rcases its with _ | l <;> rcases tot with _ | t <;>
      rcases sub with _ | s <;> rcases tax with _ | x <;>
      unfold validateAndCorrect <;> dsimp only <;> (try split_ifs) <;>
      (try dsimp only) <;> (try split_ifs) <;>
      first
        | exact Or.inl rfl
        | exact Or.inr (Or.inl ⟨l, t, rfl, rfl, by assumption, rfl⟩)
        | exact Or.inr (Or.inr ⟨s, x, rfl, rfl, rfl⟩)

/-- Witness for `validate_only_total`: on a record whose extraction produced
no total, cross-validation leaves the total absent. -/
theorem validate_only_total_witness :
    (validateAndCorrect
      { merchant := some "D-Mart", subtotal := some 10, tax := some 2,
        raw_text := "x" }).total = none :=
  (validate_only_total
    { merchant := some "D-Mart", subtotal := some 10, tax := some 2,
      raw_text := "x" }).2.2.2.2.2.2.2.2.2.1 rfl

/-! ## Claim C7: the TOTAL line -/

/-- C7 evaluation: on a text containing `"TOTAL: $31.39"`, the extractor
returns `total = 31`, not `31.39`: the cleaning step rewrites the line to
`"TOTAL: $31₹39"`, the `$` sign prevents the labelled total patterns from
matching, and the bottom-lines fallback then accepts the bare `31`. -/
theorem total_line_total_eval :
    cleanText "TOTAL: $31.39" = "TOTAL: $31₹39" ∧
    (extractData 2026 "TOTAL: $31.39").total = some 31 ∧
    ((31 : ℚ) ≠ 3139/100) := by
  refine ⟨rfl, ?_, ?_⟩ <;> with_unfolding_all decide

end Receipt
